import Mathlib

/-!
Shallow embedding of the financial projection engine in
`client/src/lib/finance-calculations.ts`, together with theorems checking
the specification's claims about it.

Numbers are modelled as exact rationals (`ℚ`); JavaScript's
`Math.round` is modelled as half-up rounding to `ℤ`.  The engine's
formulas only use `+`, `-`, `*`, `/` and natural powers, so over the
range of inputs considered here the rational model agrees with the
source's floating-point evaluation on every rounded output we state.
Division by zero (which in JavaScript produces `NaN` at these program
points, since the numerator is also zero) is modelled separately by
checked-division observers returning `Option ℚ`; the total `ℚ`
embeddings are faithful whenever the divisor is nonzero.

The source reads the wall clock (`new Date().getFullYear()`) to build
the `yearLabel` strings; that environmental input is made explicit as a
`currentYear : ℕ` parameter of each embedded function.
-/

namespace FinCalc

/-- JavaScript `Math.round`: round half-up (towards +∞). -/
def jsRound (q : ℚ) : ℤ := ⌊q + 1 / 2⌋

/-- Characterisation used to evaluate `jsRound` on concrete rationals. -/
lemma jsRound_eq_iff (q : ℚ) (n : ℤ) :
    jsRound q = n ↔ (n : ℚ) ≤ q + 1 / 2 ∧ q + 1 / 2 < n + 1 := by
  rw [jsRound, Int.floor_eq_iff]

/-- The `InvestmentFrequency` string union of the source, as an enum. -/
inductive InvestmentFrequency
  | daily
  | weekly
  | monthly
  | quarterly
  | yearly
deriving DecidableEq

/-- Periods per year for each frequency (the `periodsPerYear` assignments of
the `switch` in `calculateSip` / `calculateSipTopUp`). -/
def periodsPerYear : InvestmentFrequency → ℕ
  | .daily => 365
  | .weekly => 52
  | .monthly => 12
  | .quarterly => 4
  | .yearly => 1

/-- Periodic rate for each frequency (the `periodicRate` assignments of the
same `switch`). -/
def periodicRate (rateOfReturn : ℚ) : InvestmentFrequency → ℚ
  | .daily => rateOfReturn / 365 / 100
  | .weekly => rateOfReturn / 52 / 100
  | .monthly => rateOfReturn / 12 / 100
  | .quarterly => rateOfReturn / 4 / 100
  | .yearly => rateOfReturn / 100

/-- `YearlySipBalance` record of the source.  `investedAmount` is pushed
unrounded (the running sum), `balance` goes through `Math.round`. -/
structure YearlySipBalance where
  year : ℕ
  yearLabel : String
  investedAmount : ℚ
  balance : ℤ
deriving DecidableEq

/-- Result record of `calculateSip`. -/
structure SipResult where
  investedAmount : ℤ
  estimatedReturns : ℤ
  totalValue : ℤ
  yearlyData : List YearlySipBalance
deriving DecidableEq

/-- The closed-form future value expression of `calculateSip` (source line
51): `P * ((1+r)^n - 1) / r * (1+r)`.  Faithful for `pr ≠ 0`; the `pr = 0`
case (where JavaScript evaluates `0/0 = NaN`) is modelled by
`sipFutureValueChecked` below. -/
def sipFutureValue (c pr : ℚ) (n : ℕ) : ℚ :=
  c * (((1 + pr) ^ n - 1) / pr) * (1 + pr)

/-- Division with an explicit divide-by-zero check.  At the program points
modelled here a zero divisor comes with a zero dividend, so JavaScript
produces `NaN`; `none` records that the result is not a finite number. -/
def qdivChecked (a b : ℚ) : Option ℚ := if b = 0 then none else some (a / b)

/-- The future-value expression of `calculateSip` with its division made
checked, to observe the behaviour at zero periodic rate. -/
def sipFutureValueChecked (c pr : ℚ) (n : ℕ) : Option ℚ :=
  (qdivChecked ((1 + pr) ^ n - 1) pr).map (fun q => c * q * (1 + pr))

/-- The EMI expression of `calculateEmi` (source line 161) with its division
made checked, to observe the behaviour at zero rate. -/
def emiChecked (P mr : ℚ) (m : ℕ) : Option ℚ :=
  qdivChecked (P * mr * (1 + mr) ^ m) ((1 + mr) ^ m - 1)

/-- The yearly-breakdown loop of `calculateSip`: one recursive call per
iteration of `for (year = 1; year <= timePeriod; year++)`, carrying the
`runningInvestment` accumulator (`ri`); `fuel` is the number of remaining
iterations.  The balance is recomputed from the closed form each year, as in
the source. -/
def sipYearlyAux (c pr : ℚ) (ppy cy : ℕ) : ℚ → ℕ → ℕ → List YearlySipBalance
  | _, _, 0 => []
  | ri, year, fuel + 1 =>
    let ri1 := ri + c * (ppy : ℚ)
    { year := year
      yearLabel := toString (cy + year - 1)
      investedAmount := ri1
      balance := jsRound (sipFutureValue c pr (year * ppy)) } ::
      sipYearlyAux c pr ppy cy ri1 (year + 1) fuel

/-- Embedding of `calculateSip`.  `currentYear` is the source's
`new Date().getFullYear()` wall-clock read, made explicit. -/
def calculateSip (investmentAmount rateOfReturn : ℚ) (timePeriod : ℕ)
    (frequency : InvestmentFrequency) (currentYear : ℕ) : SipResult :=
  let ppy := periodsPerYear frequency
  let pr := periodicRate rateOfReturn frequency
  let totalPeriods := timePeriod * ppy
  let investedAmount : ℚ := investmentAmount * (totalPeriods : ℚ)
  let futureValue := sipFutureValue investmentAmount pr totalPeriods
  { investedAmount := jsRound investedAmount
    estimatedReturns := jsRound (futureValue - investedAmount)
    totalValue := jsRound futureValue
    yearlyData := sipYearlyAux investmentAmount pr ppy currentYear 0 1 timePeriod }

/-- `YearlySwpBalance` record of the source.  `withdrawalAmount` and
`balance` go through `Math.round` (the latter also through `Math.max(0, ·)`). -/
structure YearlySwpBalance where
  year : ℕ
  yearLabel : String
  withdrawalAmount : ℤ
  balance : ℤ
deriving DecidableEq

/-- Result record of `calculateSwp`. -/
structure SwpResult where
  finalBalance : ℤ
  totalWithdrawal : ℤ
  yearlyWithdrawal : ℤ
  yearlyData : List YearlySwpBalance
deriving DecidableEq

/-- The inner month loop of `calculateSwp`: starting from balance `b`, for up
to `fuel` months (the source always runs it with `fuel = 12`) grow the
balance by `(1 + mr)`, subtract the withdrawal `w`, and stop with the
balance capped at `0` as soon as it goes negative.  Returns the end balance
and the number of months executed; `thisYearWithdrawal` (and the increment
of `totalWithdrawal`) is `w` times that count, since the source adds the
full nominal withdrawal each executed month, the capped one included. -/
def swpYearInner (mr w : ℚ) : ℕ → ℚ → ℚ × ℕ
  | 0, b => (b, 0)
  | fuel + 1, b =>
    let b1 := b * (1 + mr) - w
    if b1 < 0 then (0, 1)
    else
      let r := swpYearInner mr w fuel b1
      (r.1, r.2 + 1)

/-- The outer year loop of `calculateSwp`, carrying the balance `b` and the
running `totalWithdrawal` `tw`; returns the final balance, the final total
withdrawal and the pushed yearly entries.  The loop stops early (after
pushing the current entry) when the end-of-year balance is `≤ 0`. -/
def swpYearsAux (mr w : ℚ) (cy : ℕ) : ℕ → ℕ → ℚ → ℚ → ℚ × ℚ × List YearlySwpBalance
  | 0, _, b, tw => (b, tw, [])
  | fuel + 1, year, b, tw =>
    let s := swpYearInner mr w 12 b
    let entry : YearlySwpBalance :=
      { year := year
        yearLabel := toString (cy + year - 1)
        withdrawalAmount := jsRound (w * (s.2 : ℚ))
        balance := max 0 (jsRound s.1) }
    if s.1 ≤ 0 then (s.1, tw + w * (s.2 : ℚ), [entry])
    else
      let r := swpYearsAux mr w cy fuel (year + 1) s.1 (tw + w * (s.2 : ℚ))
      (r.1, r.2.1, entry :: r.2.2)

/-- Embedding of `calculateSwp`. -/
def calculateSwp (initialInvestment monthlyWithdrawal rateOfReturn : ℚ)
    (timePeriod cy : ℕ) : SwpResult :=
  let monthlyRate := rateOfReturn / 12 / 100
  let res := swpYearsAux monthlyRate monthlyWithdrawal cy timePeriod 1 initialInvestment 0
  { finalBalance := max 0 (jsRound res.1)
    totalWithdrawal := jsRound res.2.1
    yearlyWithdrawal := jsRound (monthlyWithdrawal * 12)
    yearlyData := res.2.2 }

/-- `AmortizationEntry` record of the source. -/
structure AmortizationEntry where
  year : ℕ
  principal : ℤ
  interest : ℤ
  balance : ℤ
deriving DecidableEq

/-- Result record of `calculateEmi`. -/
structure EmiResult where
  emi : ℤ
  totalInterest : ℤ
  totalPayment : ℤ
deriving DecidableEq

/-- The EMI formula of the source (line 161):
`P * r * (1+r)^m / ((1+r)^m - 1)` with `r = rate/12/100`, `m = tenure*12`.
Faithful for `rate ≠ 0`; the `rate = 0` case (JavaScript `0/0 = NaN`) is
modelled by `emiChecked`. -/
def emiExact (P rate : ℚ) (tenure : ℕ) : ℚ :=
  let monthlyRate := rate / 12 / 100
  let months := tenure * 12
  P * monthlyRate * (1 + monthlyRate) ^ months / ((1 + monthlyRate) ^ months - 1)

/-- Embedding of `calculateEmi`. -/
def calculateEmi (P rate : ℚ) (tenure : ℕ) : EmiResult :=
  let emi := emiExact P rate tenure
  let totalPayment := emi * ((tenure * 12 : ℕ) : ℚ)
  { emi := jsRound emi
    totalInterest := jsRound (totalPayment - P)
    totalPayment := jsRound totalPayment }

/-- Loan balance of `generateAmortizationSchedule` after `k` months: each
month the source computes `interestForMonth = balance * monthlyRate`,
`principalForMonth = emi - interestForMonth`, and decreases the balance by
`principalForMonth`. -/
def amortBal (P mr E : ℚ) : ℕ → ℚ
  | 0 => P
  | k + 1 => amortBal P mr E k - (E - amortBal P mr E k * mr)

/-- `interestForMonth` of month `k+1` (0-indexed `k`) in the schedule loop. -/
def monthInterest (P mr E : ℚ) (k : ℕ) : ℚ := amortBal P mr E k * mr

/-- `principalForMonth` of month `k+1` (0-indexed `k`) in the schedule loop. -/
def monthPrincipal (P mr E : ℚ) (k : ℕ) : ℚ := E - monthInterest P mr E k

/-- Sum of the first `k` monthly principal components of the schedule loop. -/
def amortSumP (P mr E : ℚ) : ℕ → ℚ
  | 0 => 0
  | k + 1 => amortSumP P mr E k + monthPrincipal P mr E k

/-- Sum of the first `k` monthly interest components of the schedule loop. -/
def amortSumI (P mr E : ℚ) : ℕ → ℚ
  | 0 => 0
  | k + 1 => amortSumI P mr E k + monthInterest P mr E k

/-- Embedding of `generateAmortizationSchedule`.  The source's yearly loop
runs the monthly recurrence 12 months per year (the guard
`(year-1)*12 + month <= months` is always true since `months = tenure*12`
and `year ≤ tenure`), resets the yearly sums each year and pushes the
rounded sums with the end-of-year balance floored at 0; year `y+1` thus
covers months `12*y` to `12*(y+1) - 1` of the global month recurrence. -/
def generateAmortizationSchedule (P rate : ℚ) (tenure : ℕ) : List AmortizationEntry :=
  let mr := rate / 12 / 100
  let E := emiExact P rate tenure
  (List.range tenure).map (fun y =>
    { year := y + 1
      principal := jsRound (amortSumP P mr E (12 * (y + 1)) - amortSumP P mr E (12 * y))
      interest := jsRound (amortSumI P mr E (12 * (y + 1)) - amortSumI P mr E (12 * y))
      balance := max 0 (jsRound (amortBal P mr E (12 * (y + 1)))) })

/-- `YearlyLumpsumBalance` record of the source. -/
structure YearlyLumpsumBalance where
  year : ℕ
  yearLabel : String
  investedAmount : ℚ
  balance : ℤ
deriving DecidableEq

/-- Result record of `calculateLumpsum`.  The top-level `investedAmount` is
returned unrounded by the source. -/
structure LumpsumResult where
  investedAmount : ℚ
  estimatedReturns : ℤ
  totalValue : ℤ
  yearlyData : List YearlyLumpsumBalance
deriving DecidableEq

/-- Embedding of `calculateLumpsum`.  The yearly loop carries no state: each
entry is recomputed from the closed form at its own year index, so the loop
is a map over the year indices. -/
def calculateLumpsum (investmentAmount rateOfReturn : ℚ) (timePeriod cy : ℕ) :
    LumpsumResult :=
  let annualRate := rateOfReturn / 100
  let futureValue := investmentAmount * (1 + annualRate) ^ timePeriod
  { investedAmount := investmentAmount
    estimatedReturns := jsRound (futureValue - investmentAmount)
    totalValue := jsRound futureValue
    yearlyData := (List.range timePeriod).map (fun i =>
      { year := i + 1
        yearLabel := toString (cy + (i + 1) - 1)
        investedAmount := investmentAmount
        balance := jsRound (investmentAmount * (1 + annualRate) ^ (i + 1)) }) }

/-- `YearlySipTopUpBalance` record of the source. -/
structure YearlySipTopUpBalance where
  year : ℕ
  yearLabel : String
  investedAmount : ℚ
  balance : ℤ
deriving DecidableEq

/-- Result record of `calculateSipTopUp`. -/
structure SipTopUpResult where
  investedAmount : ℤ
  estimatedReturns : ℤ
  totalValue : ℤ
  yearlyData : List YearlySipTopUpBalance
deriving DecidableEq

/-- The inner period loop of `calculateSipTopUp`: for each of the year's
periods the source adds the current contribution to `yearlyInvestment` and
to `futureValue`, then multiplies `futureValue` by `(1 + periodicRate)`.
The state is the pair `(yearlyInvestment, futureValue)`. -/
def topUpYearLoop (pr c : ℚ) (ppy : ℕ) (s : ℚ × ℚ) : ℚ × ℚ :=
  (List.range ppy).foldl (fun s2 _ => (s2.1 + c, (s2.2 + c) * (1 + pr))) s

/-- The outer year loop of `calculateSipTopUp`, carrying the current
contribution `c`, the running `totalInvestedAmount` `tot` and the running
`futureValue` `fv`.  Each year first multiplies `fv` by
`(1 + pr) ^ periodsPerYear`, then runs the period loop; the contribution is
increased by `inc/100` of itself at the end of every year except the last
(the source guard `year < timePeriod`, i.e. remaining-years `fuel ≠ 0`). -/
def sipTopUpAux (pr inc : ℚ) (ppy cy : ℕ) :
    ℕ → ℕ → ℚ → ℚ → ℚ → ℚ × ℚ × List YearlySipTopUpBalance
  | 0, _, _, tot, fv => (tot, fv, [])
  | fuel + 1, year, c, tot, fv =>
    let s := topUpYearLoop pr c ppy (0, fv * (1 + pr) ^ ppy)
    let tot1 := tot + s.1
    let entry : YearlySipTopUpBalance :=
      { year := year
        yearLabel := toString (cy + year - 1)
        investedAmount := tot1
        balance := jsRound s.2 }
    let c1 := if fuel = 0 then c else c + c * (inc / 100)
    let r := sipTopUpAux pr inc ppy cy fuel (year + 1) c1 tot1 s.2
    (r.1, r.2.1, entry :: r.2.2)

/-- Embedding of `calculateSipTopUp`. -/
def calculateSipTopUp (investmentAmount annualIncreasePercentage rateOfReturn : ℚ)
    (timePeriod : ℕ) (frequency : InvestmentFrequency) (currentYear : ℕ) :
    SipTopUpResult :=
  let res := sipTopUpAux (periodicRate rateOfReturn frequency)
    annualIncreasePercentage (periodsPerYear frequency) currentYear
    timePeriod 1 investmentAmount 0 0
  { investedAmount := jsRound res.1
    estimatedReturns := jsRound (res.2.1 - res.1)
    totalValue := jsRound res.2.1
    yearlyData := res.2.2 }

/-- Spec-side description of one year of SIP top-up processing (spec §4.5 /
claim C7): first apply one year's worth of periodic compounding to the
existing balance, then for each period within the year add that year's
contribution and apply one period's growth to the updated total. -/
def sipTopUpYearSpec (pr : ℚ) (ppy : ℕ) (c fv : ℚ) : ℚ :=
  (List.range ppy).foldl (fun x _ => (x + c) * (1 + pr)) (fv * (1 + pr) ^ ppy)

/-- Spec-side future value after `k` years, starting from balance `fv`, where
(per claim C7) the contribution used in year `j` (1-based) is
`c * (1 + g)^(j-1)` with `g` the annual increase fraction. -/
def sipTopUpSpecFVFrom (pr g : ℚ) (ppy : ℕ) (c fv : ℚ) : ℕ → ℚ
  | 0 => fv
  | k + 1 => sipTopUpYearSpec pr ppy (c * (1 + g) ^ k) (sipTopUpSpecFVFrom pr g ppy c fv k)

/-- Spec-side future value of the whole SIP top-up run: `t` years starting
from a zero balance and starting contribution `c0`. -/
def sipTopUpSpecFV (pr g : ℚ) (ppy : ℕ) (c0 : ℚ) (t : ℕ) : ℚ :=
  sipTopUpSpecFVFrom pr g ppy c0 0 t

/-- Label-erased view of a SIP yearly entry (all fields except `yearLabel`). -/
def sipEntryStrip (e : YearlySipBalance) : ℕ × ℚ × ℤ :=
  (e.year, e.investedAmount, e.balance)

/-- Label-erased view of a SIP result. -/
def sipStrip (r : SipResult) : ℤ × ℤ × ℤ × List (ℕ × ℚ × ℤ) :=
  (r.investedAmount, r.estimatedReturns, r.totalValue, r.yearlyData.map sipEntryStrip)

/-- Label-erased view of a SWP yearly entry. -/
def swpEntryStrip (e : YearlySwpBalance) : ℕ × ℤ × ℤ :=
  (e.year, e.withdrawalAmount, e.balance)

/-- Label-erased view of a SWP result. -/
def swpStrip (r : SwpResult) : ℤ × ℤ × ℤ × List (ℕ × ℤ × ℤ) :=
  (r.finalBalance, r.totalWithdrawal, r.yearlyWithdrawal, r.yearlyData.map swpEntryStrip)

/-- Label-erased view of a lumpsum yearly entry. -/
def lumpsumEntryStrip (e : YearlyLumpsumBalance) : ℕ × ℚ × ℤ :=
  (e.year, e.investedAmount, e.balance)

/-- Label-erased view of a lumpsum result. -/
def lumpsumStrip (r : LumpsumResult) : ℚ × ℤ × ℤ × List (ℕ × ℚ × ℤ) :=
  (r.investedAmount, r.estimatedReturns, r.totalValue, r.yearlyData.map lumpsumEntryStrip)

/-- Label-erased view of a SIP top-up yearly entry. -/
def topUpEntryStrip (e : YearlySipTopUpBalance) : ℕ × ℚ × ℤ :=
  (e.year, e.investedAmount, e.balance)

/-- Label-erased view of a SIP top-up result. -/
def topUpStrip (r : SipTopUpResult) : ℤ × ℤ × ℤ × List (ℕ × ℚ × ℤ) :=
  (r.investedAmount, r.estimatedReturns, r.totalValue, r.yearlyData.map topUpEntryStrip)

/-! ### Helper lemmas about rounding -/

/-- Rounding an integer value is the identity. -/
lemma jsRound_intCast (z : ℤ) : jsRound (z : ℚ) = z := by
  rw [jsRound, Int.floor_int_add]
  norm_num [Int.floor_eq_iff]

/-- Rounding commutes with subtracting an integer. -/
lemma jsRound_sub_intCast (q : ℚ) (z : ℤ) : jsRound (q - z) = jsRound q - z := by
  rw [jsRound, jsRound, show q - (z : ℚ) + 1 / 2 = q + 1 / 2 - z by ring,
    Int.floor_sub_int]

/-- Rounding zero gives zero. -/
lemma jsRound_zero : jsRound 0 = 0 := by
  rw [jsRound, Int.floor_eq_iff]
  norm_num

/-! ### Claim theorems -/

/-- C1: the spec demands an explicit linear-formula branch for a 0% annual
rate in `calculateSip` and `calculateEmi`.  The source has no such branch:
at rate 0 it evaluates `((1+0)^n - 1) / 0 = 0/0` (SIP, line 51) and
`P * 0 * 1 / ((1+0)^m - 1) = 0/0` (EMI, line 161), which is `NaN` in
JavaScript — witnessed here by the checked-division observers returning
`none` at the spec's own example inputs `calculateSip(5000, 0, 1,
"monthly")` and `calculateEmi(1000000, 0, 20)`.  The code violates the
claim; per the spec this is "an open correctness gap in the source". -/
theorem claim1_zero_rate_divides_by_zero :
    sipFutureValueChecked 5000 (periodicRate 0 .monthly) (1 * periodsPerYear .monthly)
      = none ∧
    emiChecked 1000000 (0 / 12 / 100) (20 * 12) = none := by
  constructor
  · simp [sipFutureValueChecked, qdivChecked, periodicRate]
  · simp [emiChecked, qdivChecked]

/-- C2 counterexample: `calculateSip(5000, 12, 1, "monthly")` does not
return a `totalValue` of `63412` (the source, and the claim's own formula
`5000*((1.01^12−1)/0.01)*1.01`, give `64046.64… → 64047`; `63412` is the
value of the formula without the final annuity-due factor `1.01`). -/
theorem claim2_counterexample :
    (calculateSip 5000 12 1 .monthly 2025).totalValue ≠ 63412 := by
  have h : (calculateSip 5000 12 1 .monthly 2025).totalValue = 64047 := by
    simp only [calculateSip, sipFutureValue, periodicRate, periodsPerYear]
    rw [jsRound_eq_iff]
    norm_num
  rw [h]
  decide

/-- C2 (amended): `calculateSip(5000, 12, 1, "monthly")` uses 12 periods and
a periodic rate of `0.01`, and returns `investedAmount = 60000` and
`totalValue = 64047`, the rounding of the formula
`5000*((1.01^12−1)/0.01)*1.01 ≈ 64046.64`. -/
theorem claim2_sip_concrete :
    1 * periodsPerYear .monthly = 12 ∧
    periodicRate 12 .monthly = 1 / 100 ∧
    (calculateSip 5000 12 1 .monthly 2025).investedAmount = 60000 ∧
    (calculateSip 5000 12 1 .monthly 2025).totalValue = 64047 ∧
    (calculateSip 5000 12 1 .monthly 2025).totalValue =
      jsRound (5000 * (((1 + 1 / 100) ^ 12 - 1) / (1 / 100)) * (1 + 1 / 100)) := by
  refine ⟨by simp [periodsPerYear], by norm_num [periodicRate], ?_, ?_, ?_⟩
  · simp only [calculateSip, periodsPerYear]
    rw [jsRound_eq_iff]
    norm_num
  · simp only [calculateSip, sipFutureValue, periodicRate, periodsPerYear]
    rw [jsRound_eq_iff]
    norm_num
  · simp only [calculateSip, sipFutureValue, periodicRate, periodsPerYear]
    congr 1
    norm_num

/-- C3 counterexample: `calculateEmi(1000000, 8.5, 20)` does not return a
`totalPayment` of `2082720`: the source computes `totalPayment` from the
unrounded EMI, `8678.2296… * 240 = 2082775.76… → 2082776`, whereas `2082720`
is `240` times the already-rounded EMI `8678`. -/
theorem claim3_counterexample :
    (calculateEmi 1000000 (17 / 2) 20).totalPayment ≠ 2082720 := by
  have h : (calculateEmi 1000000 (17 / 2) 20).totalPayment = 2082776 := by
    simp only [calculateEmi, emiExact]
    rw [jsRound_eq_iff]
    norm_num
  rw [h]
  decide

/-- C3 (amended): `calculateEmi(1000000, 8.5, 20)` returns `emi = 8678`,
`totalPayment = 2082776` and `totalInterest = 1082776`, each the rounding of
a value derived from the EMI formula `P*r*(1+r)^m / ((1+r)^m − 1)` with
`r = 8.5/12/100` and `m = 240` (the claim's `2082720` and `1082720` would be
`emi` rounded before the multiplication by `m`, which is not what the source
does). -/
theorem claim3_emi_concrete :
    (calculateEmi 1000000 (17 / 2) 20).emi = 8678 ∧
    (calculateEmi 1000000 (17 / 2) 20).totalPayment = 2082776 ∧
    (calculateEmi 1000000 (17 / 2) 20).totalInterest = 1082776 ∧
    emiExact 1000000 (17 / 2) 20 =
      1000000 * (17 / 2 / 12 / 100) * (1 + 17 / 2 / 12 / 100) ^ 240 /
        ((1 + 17 / 2 / 12 / 100) ^ 240 - 1) := by
  refine ⟨?_, ?_, ?_, by norm_num [emiExact]⟩
  · simp only [calculateEmi, emiExact]
    rw [jsRound_eq_iff]
    norm_num
  · simp only [calculateEmi, emiExact]
    rw [jsRound_eq_iff]
    norm_num
  · simp only [calculateEmi, emiExact]
    rw [jsRound_eq_iff]
    norm_num

/-- C4 counterexample: for the valid input `calculateSip(0.8, 12, 1,
"monthly")` (positive contribution, positive rate, integer horizon) the
rounded outputs are `estimatedReturns = 1`, `totalValue = 10`,
`investedAmount = 10`, so `estimatedReturns ≠ totalValue - investedAmount`:
the source rounds the three fields independently, and for a non-integer
invested amount (here `9.6`) the rounded identity breaks. -/
theorem claim4_counterexample :
    ¬ ((calculateSip (4 / 5) 12 1 .monthly 2025).estimatedReturns =
        (calculateSip (4 / 5) 12 1 .monthly 2025).totalValue -
        (calculateSip (4 / 5) 12 1 .monthly 2025).investedAmount) := by
  have h1 : (calculateSip (4 / 5) 12 1 .monthly 2025).estimatedReturns = 1 := by
    simp only [calculateSip, sipFutureValue, periodicRate, periodsPerYear]
    rw [jsRound_eq_iff]
    norm_num
  have h2 : (calculateSip (4 / 5) 12 1 .monthly 2025).totalValue = 10 := by
    simp only [calculateSip, sipFutureValue, periodicRate, periodsPerYear]
    rw [jsRound_eq_iff]
    norm_num
  have h3 : (calculateSip (4 / 5) 12 1 .monthly 2025).investedAmount = 10 := by
    simp only [calculateSip, periodsPerYear]
    rw [jsRound_eq_iff]
    norm_num
  rw [h1, h2, h3]
  decide

/-- C4 (amended): the identity `estimatedReturns = totalValue -
investedAmount` between the rounded output fields of `calculateSip` holds
for every valid input whose exact invested amount
`contribution * (horizon * periodsPerYear)` is an integer (in particular for
every whole-currency contribution); it can be off by one when the invested
amount is fractional, since the three fields are rounded independently. -/
theorem claim4_returns_identity (c r : ℚ) (t : ℕ) (f : InvestmentFrequency)
    (cy : ℕ) (z : ℤ) (hz : c * ((t * periodsPerYear f : ℕ) : ℚ) = (z : ℚ)) :
    (calculateSip c r t f cy).estimatedReturns =
      (calculateSip c r t f cy).totalValue - (calculateSip c r t f cy).investedAmount := by
  simp only [calculateSip]
  rw [hz, jsRound_sub_intCast, jsRound_intCast]

/-- C4 witness: the identity holds at `calculateSip(5000, 12, 1, "monthly")`,
whose invested amount `5000 * 12 = 60000` is an integer. -/
theorem claim4_returns_identity_witness :
    (5000 : ℚ) * ((1 * periodsPerYear .monthly : ℕ) : ℚ) = ((60000 : ℤ) : ℚ) ∧
    (calculateSip 5000 12 1 .monthly 2025).estimatedReturns =
      (calculateSip 5000 12 1 .monthly 2025).totalValue -
      (calculateSip 5000 12 1 .monthly 2025).investedAmount :=
  ⟨by norm_num [periodsPerYear],
    claim4_returns_identity 5000 12 1 .monthly 2025 60000 (by norm_num [periodsPerYear])⟩

/-! ### SWP loop lemmas -/

/-- One-step equation of the inner month loop, stated let-free so rewrites
are predictable. -/
lemma swpYearInner_succ (mr w : ℚ) (m : ℕ) (b : ℚ) :
    swpYearInner mr w (m + 1) b =
      if b * (1 + mr) - w < 0 then (0, 1)
      else ((swpYearInner mr w m (b * (1 + mr) - w)).1,
        (swpYearInner mr w m (b * (1 + mr) - w)).2 + 1) := rfl

/-- The yearly entry pushed by the outer SWP loop at `year`, for incoming
balance `b`. -/
def swpEntry (mr w : ℚ) (cy year : ℕ) (b : ℚ) : YearlySwpBalance :=
  { year := year
    yearLabel := toString (cy + year - 1)
    withdrawalAmount := jsRound (w * ((swpYearInner mr w 12 b).2 : ℚ))
    balance := max 0 (jsRound (swpYearInner mr w 12 b).1) }

/-- One-step equation of the outer year loop, stated let-free. -/
lemma swpYearsAux_succ (mr w : ℚ) (cy fuel year : ℕ) (b tw : ℚ) :
    swpYearsAux mr w cy (fuel + 1) year b tw =
      if (swpYearInner mr w 12 b).1 ≤ 0 then
        ((swpYearInner mr w 12 b).1, tw + w * ((swpYearInner mr w 12 b).2 : ℚ),
          [swpEntry mr w cy year b])
      else
        ((swpYearsAux mr w cy fuel (year + 1) (swpYearInner mr w 12 b).1
            (tw + w * ((swpYearInner mr w 12 b).2 : ℚ))).1,
          (swpYearsAux mr w cy fuel (year + 1) (swpYearInner mr w 12 b).1
            (tw + w * ((swpYearInner mr w 12 b).2 : ℚ))).2.1,
          swpEntry mr w cy year b ::
            (swpYearsAux mr w cy fuel (year + 1) (swpYearInner mr w 12 b).1
              (tw + w * ((swpYearInner mr w 12 b).2 : ℚ))).2.2) := rfl

/-- The inner month loop never returns a negative balance when it runs at
least one month: any negative intermediate balance is capped to `0` on the
spot, and a surviving balance was checked nonnegative. -/
lemma swpYearInner_nonneg (mr w : ℚ) :
    ∀ (fuel : ℕ) (b : ℚ), 1 ≤ fuel → 0 ≤ (swpYearInner mr w fuel b).1 := by
  intro fuel
  induction fuel with
  | zero => intro b h; omega
  | succ k ih =>
    intro b _
    rw [swpYearInner_succ]
    by_cases hneg : b * (1 + mr) - w < 0
    · rw [if_pos hneg]
    · rw [if_neg hneg]
      rcases Nat.eq_zero_or_pos k with hk | hk
      · subst hk
        simpa [swpYearInner] using le_of_not_lt hneg
      · exact ih (b * (1 + mr) - w) hk

/-- The outer year loop pushes at most one entry per remaining year. -/
lemma swpYearsAux_length (mr w : ℚ) (cy : ℕ) :
    ∀ (fuel year : ℕ) (b tw : ℚ),
      (swpYearsAux mr w cy fuel year b tw).2.2.length ≤ fuel := by
  intro fuel
  induction fuel with
  | zero => intro year b tw; simp [swpYearsAux]
  | succ k ih =>
    intro year b tw
    rw [swpYearsAux_succ]
    by_cases hle : (swpYearInner mr w 12 b).1 ≤ 0
    · rw [if_pos hle]
      simp
    · rw [if_neg hle]
      have := ih (year + 1) (swpYearInner mr w 12 b).1
        (tw + w * ((swpYearInner mr w 12 b).2 : ℚ))
      simp only [List.length_cons]
      omega

/-- If the outer loop stopped before exhausting its years, the final balance
is exactly `0`: the loop only stops early when the end-of-year balance is
`≤ 0`, and the inner loop keeps it `≥ 0`. -/
lemma swpYearsAux_early_stop (mr w : ℚ) (cy : ℕ) :
    ∀ (fuel year : ℕ) (b tw : ℚ),
      (swpYearsAux mr w cy fuel year b tw).2.2.length < fuel →
      (swpYearsAux mr w cy fuel year b tw).1 = 0 := by
  intro fuel
  induction fuel with
  | zero => intro year b tw h; simp [swpYearsAux] at h
  | succ k ih =>
    intro year b tw h
    rw [swpYearsAux_succ] at h ⊢
    by_cases hle : (swpYearInner mr w 12 b).1 ≤ 0
    · rw [if_pos hle]
      exact le_antisymm hle (swpYearInner_nonneg mr w 12 b (by omega))
    · rw [if_neg hle] at h ⊢
      simp only [List.length_cons] at h
      exact ih (year + 1) (swpYearInner mr w 12 b).1
        (tw + w * ((swpYearInner mr w 12 b).2 : ℚ)) (by omega)

/-- The balance of the last pushed entry equals the (clamped, rounded) final
balance carried out of the outer loop, whenever at least one year runs. -/
lemma swpYearsAux_getLast (mr w : ℚ) (cy : ℕ) :
    ∀ (fuel year : ℕ) (b tw : ℚ), 1 ≤ fuel →
      (swpYearsAux mr w cy fuel year b tw).2.2.getLast?.map (fun e => e.balance) =
        some (max 0 (jsRound (swpYearsAux mr w cy fuel year b tw).1)) := by
  intro fuel
  induction fuel with
  | zero => intro year b tw h; omega
  | succ k ih =>
    intro year b tw _
    rw [swpYearsAux_succ]
    by_cases hle : (swpYearInner mr w 12 b).1 ≤ 0
    · rw [if_pos hle]
      simp [swpEntry]
    · rw [if_neg hle]
      rcases Nat.eq_zero_or_pos k with hk | hk
      · subst hk
        simp [swpYearsAux, swpEntry]
      · have h := ih (year + 1) (swpYearInner mr w 12 b).1
          (tw + w * ((swpYearInner mr w 12 b).2 : ℚ)) hk
        rcases hrest : (swpYearsAux mr w cy k (year + 1) (swpYearInner mr w 12 b).1
            (tw + w * ((swpYearInner mr w 12 b).2 : ℚ))).2.2 with _ | ⟨e, l⟩
        · rw [hrest] at h
          simp at h
        · rw [hrest] at h
          simpa [List.getLast?_cons_cons, hrest] using h

/-- C5: for every input, `calculateSwp` returns at most `timePeriod` yearly
entries, and whenever it returns strictly fewer (the designed early exit),
the returned `finalBalance` is `0`. -/
theorem claim5_swp_early_exit (init w r : ℚ) (t cy : ℕ) :
    (calculateSwp init w r t cy).yearlyData.length ≤ t ∧
    ((calculateSwp init w r t cy).yearlyData.length < t →
      (calculateSwp init w r t cy).finalBalance = 0) := by
  constructor
  · simpa [calculateSwp] using swpYearsAux_length (r / 12 / 100) w cy t 1 init 0
  · intro h
    simp only [calculateSwp] at h ⊢
    rw [swpYearsAux_early_stop (r / 12 / 100) w cy t 1 init 0 h, jsRound_zero]
    simp

/-- C5 witness: `calculateSwp(100, 100, 0, 5)` exhausts its balance in the
first year, returns a single yearly entry (fewer than the 5 requested) and a
`finalBalance` of `0`. -/
theorem claim5_swp_early_exit_witness :
    (calculateSwp 100 100 0 5 2025).yearlyData.length < 5 ∧
    (calculateSwp 100 100 0 5 2025).finalBalance = 0 := by
  have hlen : (calculateSwp 100 100 0 5 2025).yearlyData.length < 5 := by
    norm_num [calculateSwp, swpYearsAux, swpYearInner]
  exact ⟨hlen, (claim5_swp_early_exit 100 100 0 5 2025).2 hlen⟩

/-! ### SIP yearly-loop lemmas -/

/-- One-step equation of the SIP yearly loop. -/
lemma sipYearlyAux_succ (c pr : ℚ) (ppy cy : ℕ) (ri : ℚ) (year fuel : ℕ) :
    sipYearlyAux c pr ppy cy ri year (fuel + 1) =
      { year := year
        yearLabel := toString (cy + year - 1)
        investedAmount := ri + c * (ppy : ℚ)
        balance := jsRound (sipFutureValue c pr (year * ppy)) } ::
        sipYearlyAux c pr ppy cy (ri + c * (ppy : ℚ)) (year + 1) fuel := rfl

/-- The last entry of the SIP yearly loop carries the rounded closed-form
balance at the final year processed. -/
lemma sipYearlyAux_getLast (c pr : ℚ) (ppy cy : ℕ) :
    ∀ (fuel : ℕ), 1 ≤ fuel → ∀ (year : ℕ) (ri : ℚ),
      (sipYearlyAux c pr ppy cy ri year fuel).getLast?.map (fun e => e.balance) =
        some (jsRound (sipFutureValue c pr ((year + fuel - 1) * ppy))) := by
  intro fuel
  induction fuel with
  | zero => intro h; omega
  | succ k ih =>
    intro _ year ri
    rcases Nat.eq_zero_or_pos k with hk | hk
    · subst hk
      simp [sipYearlyAux_succ, sipYearlyAux]
    · obtain ⟨k2, rfl⟩ : ∃ k2, k = k2 + 1 := ⟨k - 1, by omega⟩
      rw [sipYearlyAux_succ, sipYearlyAux_succ, List.getLast?_cons_cons,
        ← sipYearlyAux_succ, ih hk (year + 1) (ri + c * (ppy : ℚ))]
      have harith : year + 1 + (k2 + 1) - 1 = year + (k2 + 1 + 1) - 1 := by omega
      rw [harith]

/-! ### Amortization lemmas -/

/-- Closed form of the amortization balance after `k` months. -/
lemma amortBal_closed (P mr E : ℚ) (hmr : mr ≠ 0) :
    ∀ k : ℕ, amortBal P mr E k = P * (1 + mr) ^ k - E * ((1 + mr) ^ k - 1) / mr := by
  intro k
  induction k with
  | zero => simp [amortBal]
  | succ k ih =>
    rw [show k + 1 = k + 1 from rfl, amortBal, ih]
    field_simp
    ring

/-- The monthly principal components telescope: their sum over the first `k`
months is the principal repaid so far. -/
lemma amortSumP_eq (P mr E : ℚ) : ∀ k : ℕ, amortSumP P mr E k = P - amortBal P mr E k := by
  intro k
  induction k with
  | zero => simp [amortSumP, amortBal]
  | succ k ih =>
    rw [amortSumP, monthPrincipal, monthInterest, ih,
      show amortBal P mr E (k + 1) = amortBal P mr E k - (E - amortBal P mr E k * mr)
        from rfl]
    ring

/-- Each month's principal and interest components add up to the EMI, so the
interest paid over the first `k` months is `E * k` minus the principal paid. -/
lemma amortSumI_eq (P mr E : ℚ) :
    ∀ k : ℕ, amortSumI P mr E k = E * k - amortSumP P mr E k := by
  intro k
  induction k with
  | zero => simp [amortSumI, amortSumP]
  | succ k ih =>
    rw [amortSumI, amortSumP, monthPrincipal, ih]
    push_cast
    ring

/-- C6: for positive principal, positive rate and at least one year of
tenure, the unrounded monthly principal components of the amortization
schedule loop sum to exactly `P` over the full term, the monthly interest
components plus `P` sum to exactly the unrounded total payment `EMI * m`,
and `calculateEmi` reports exactly the rounding of that total payment; the
schedule has one entry per year of tenure. -/
theorem claim6_amortization_sums (P r : ℚ) (t : ℕ) (_hP : 0 < P) (hr : 0 < r)
    (ht : 1 ≤ t) :
    amortSumP P (r / 12 / 100) (emiExact P r t) (t * 12) = P ∧
    amortSumI P (r / 12 / 100) (emiExact P r t) (t * 12) + P =
      emiExact P r t * ((t * 12 : ℕ) : ℚ) ∧
    (calculateEmi P r t).totalPayment = jsRound (emiExact P r t * ((t * 12 : ℕ) : ℚ)) ∧
    (generateAmortizationSchedule P r t).length = t := by
  have hmr : (0 : ℚ) < r / 12 / 100 := by positivity
  have hmr0 : r / 12 / 100 ≠ 0 := ne_of_gt hmr
  have hm0 : t * 12 ≠ 0 := by omega
  have hpow : (1 : ℚ) < (1 + r / 12 / 100) ^ (t * 12) :=
    one_lt_pow₀ (by linarith) hm0
  have hden : (1 + r / 12 / 100) ^ (t * 12) - 1 ≠ 0 :=
    sub_ne_zero.mpr (ne_of_gt hpow)
  have hbal : amortBal P (r / 12 / 100) (emiExact P r t) (t * 12) = 0 := by
    rw [amortBal_closed P (r / 12 / 100) (emiExact P r t) hmr0 (t * 12), emiExact]
    generalize hA : (1 + r / 12 / 100) ^ (t * 12) = A at hden ⊢
    generalize hM : r / 12 / 100 = M at hmr0 ⊢
    field_simp
    ring
  refine ⟨?_, ?_, rfl, by simp [generateAmortizationSchedule]⟩
  · rw [amortSumP_eq, hbal, sub_zero]
  · rw [amortSumI_eq, amortSumP_eq, hbal, sub_zero]
    ring

/-- C6 witness: the summation identities hold at
`generateAmortizationSchedule(1000000, 12, 1)`. -/
theorem claim6_amortization_sums_witness :
    (0 : ℚ) < 1000000 ∧ (0 : ℚ) < 12 ∧ 1 ≤ 1 ∧
    (amortSumP 1000000 (12 / 12 / 100) (emiExact 1000000 12 1) (1 * 12) = 1000000 ∧
      amortSumI 1000000 (12 / 12 / 100) (emiExact 1000000 12 1) (1 * 12) + 1000000 =
        emiExact 1000000 12 1 * ((1 * 12 : ℕ) : ℚ) ∧
      (calculateEmi 1000000 12 1).totalPayment =
        jsRound (emiExact 1000000 12 1 * ((1 * 12 : ℕ) : ℚ)) ∧
      (generateAmortizationSchedule 1000000 12 1).length = 1) :=
  ⟨by norm_num, by norm_num, le_refl 1,
    claim6_amortization_sums 1000000 12 1 (by norm_num) (by norm_num) (le_refl 1)⟩

/-! ### SIP top-up lemmas -/

/-- The two components of the top-up period loop evolve independently: the
first accumulates one contribution per period, the second is the balance
recurrence of the spec description. -/
lemma topUpYearLoop_split (pr c : ℚ) :
    ∀ (l : List ℕ) (p : ℚ × ℚ),
      l.foldl (fun s2 _ => (s2.1 + c, (s2.2 + c) * (1 + pr))) p =
        (p.1 + c * (l.length : ℚ), l.foldl (fun x _ => (x + c) * (1 + pr)) p.2) := by
  intro l
  induction l with
  | nil => intro p; simp
  | cons a l ih =>
    intro p
    simp only [List.foldl_cons, ih, List.length_cons, Prod.mk.injEq]
    exact ⟨by push_cast; ring, trivial⟩

/-- Evaluating the top-up period loop on the state the source passes it:
the year's invested amount is `c * periodsPerYear` and the year-end balance
is exactly the spec-side one-year step. -/
lemma topUpYearLoop_eval (pr c fv : ℚ) (ppy : ℕ) :
    topUpYearLoop pr c ppy (0, fv * (1 + pr) ^ ppy) =
      (c * (ppy : ℚ), sipTopUpYearSpec pr ppy c fv) := by
  rw [topUpYearLoop, topUpYearLoop_split]
  simp [sipTopUpYearSpec]

/-- Shifting the spec-side recurrence by one processed year: running `k`
years from the post-year-1 state with the once-increased contribution is
running `k+1` years from the initial state. -/
lemma sipTopUpSpecFVFrom_shift (pr g : ℚ) (ppy : ℕ) (c fv : ℚ) :
    ∀ k : ℕ,
      sipTopUpSpecFVFrom pr g ppy (c * (1 + g)) (sipTopUpYearSpec pr ppy c fv) k =
        sipTopUpSpecFVFrom pr g ppy c fv (k + 1) := by
  intro k
  induction k with
  | zero => simp [sipTopUpSpecFVFrom]
  | succ k ih =>
    conv_lhs => rw [sipTopUpSpecFVFrom]
    conv_rhs => rw [sipTopUpSpecFVFrom]
    rw [ih]
    congr 1
    ring

/-- The running future value of the top-up year loop follows the spec-side
recurrence: starting contribution `c`, growing by `inc/100` each processed
year (the source's skipped increase after the final year does not affect the
balance, as the increased contribution is never used). -/
lemma sipTopUpAux_fv (pr inc : ℚ) (ppy cy : ℕ) :
    ∀ (fuel year : ℕ) (c tot fv : ℚ),
      (sipTopUpAux pr inc ppy cy fuel year c tot fv).2.1 =
        sipTopUpSpecFVFrom pr (inc / 100) ppy c fv fuel := by
  intro fuel
  induction fuel with
  | zero => intro year c tot fv; simp [sipTopUpAux, sipTopUpSpecFVFrom]
  | succ k ih =>
    intro year c tot fv
    simp only [sipTopUpAux, topUpYearLoop_eval]
    rw [ih]
    rcases Nat.eq_zero_or_pos k with hk | hk
    · subst hk
      simp [sipTopUpSpecFVFrom]
    · rw [if_neg (by omega : ¬ k = 0),
        show c + c * (inc / 100) = c * (1 + inc / 100) by ring,
        sipTopUpSpecFVFrom_shift]

/-- The top-up year loop pushes exactly one entry per processed year. -/
lemma sipTopUpAux_length (pr inc : ℚ) (ppy cy : ℕ) :
    ∀ (fuel year : ℕ) (c tot fv : ℚ),
      (sipTopUpAux pr inc ppy cy fuel year c tot fv).2.2.length = fuel := by
  intro fuel
  induction fuel with
  | zero => intro year c tot fv; simp [sipTopUpAux]
  | succ k ih =>
    intro year c tot fv
    simp only [sipTopUpAux, List.length_cons]
    rw [ih]

/-- The balance stored in the `i`-th pushed entry of the top-up year loop is
the rounded spec-side future value after `i+1` processed years. -/
lemma sipTopUpAux_balances (pr inc : ℚ) (ppy cy : ℕ) :
    ∀ (fuel year : ℕ) (c tot fv : ℚ) (i : ℕ), i < fuel →
      ((sipTopUpAux pr inc ppy cy fuel year c tot fv).2.2[i]?).map (fun e => e.balance) =
        some (jsRound (sipTopUpSpecFVFrom pr (inc / 100) ppy c fv (i + 1))) := by
  intro fuel
  induction fuel with
  | zero => intro year c tot fv i hi; omega
  | succ k ih =>
    intro year c tot fv i hi
    simp only [sipTopUpAux, topUpYearLoop_eval]
    rcases i with _ | j
    · rw [← sipTopUpSpecFVFrom_shift]
      simp [sipTopUpSpecFVFrom]
    · have hk : ¬ k = 0 := by omega
      rw [if_neg hk]
      simp only [List.getElem?_cons_succ]
      rw [show c + c * (inc / 100) = c * (1 + inc / 100) by ring,
        ih (year + 1) (c * (1 + inc / 100)) (tot + c * (ppy : ℚ))
          (sipTopUpYearSpec pr ppy c fv) j (by omega),
        sipTopUpSpecFVFrom_shift]

/-- The balance of the last entry pushed by the top-up year loop is the
rounding of the final running future value, whenever at least one year
runs. -/
lemma sipTopUpAux_getLast (pr inc : ℚ) (ppy cy : ℕ) :
    ∀ (fuel : ℕ), 1 ≤ fuel → ∀ (year : ℕ) (c tot fv : ℚ),
      (sipTopUpAux pr inc ppy cy fuel year c tot fv).2.2.getLast?.map (fun e => e.balance) =
        some (jsRound (sipTopUpAux pr inc ppy cy fuel year c tot fv).2.1) := by
  intro fuel
  induction fuel with
  | zero => intro h; omega
  | succ k ih =>
    intro _ year c tot fv
    rcases Nat.eq_zero_or_pos k with hk | hk
    · subst hk
      simp [sipTopUpAux, topUpYearLoop_eval]
    · simp only [sipTopUpAux, topUpYearLoop_eval]
      have h := ih hk (year + 1) (if k = 0 then c else c + c * (inc / 100))
        (tot + c * (ppy : ℚ)) (sipTopUpYearSpec pr ppy c fv)
      rcases hrest : (sipTopUpAux pr inc ppy cy k (year + 1)
          (if k = 0 then c else c + c * (inc / 100)) (tot + c * (ppy : ℚ))
          (sipTopUpYearSpec pr ppy c fv)).2.2 with _ | ⟨e, l⟩
      · rw [hrest] at h
        simp at h
      · rw [hrest] at h
        simpa [List.getLast?_cons_cons, hrest] using h

/-- C7: the total value reported by `calculateSipTopUp` is the rounding of
the spec-side recurrence (each year: one year of periodic compounding on the
existing balance, then per period add the year's contribution and apply one
period's growth), and every yearly entry's balance is the rounding of that
recurrence after its year — where the contribution used in year `k` is
`c0 * (1 + inc/100)^(k-1)`, i.e. it is increased by `inc/100` after every
year except the last. -/
theorem claim7_topup_yearly_processing (c0 inc r : ℚ) (t : ℕ)
    (f : InvestmentFrequency) (cy : ℕ) :
    (calculateSipTopUp c0 inc r t f cy).totalValue =
      jsRound (sipTopUpSpecFV (periodicRate r f) (inc / 100) (periodsPerYear f) c0 t) ∧
    ∀ i, i < t →
      (((calculateSipTopUp c0 inc r t f cy).yearlyData)[i]?).map (fun e => e.balance) =
        some (jsRound
          (sipTopUpSpecFV (periodicRate r f) (inc / 100) (periodsPerYear f) c0 (i + 1))) := by
  constructor
  · simp only [calculateSipTopUp, sipTopUpSpecFV]
    rw [sipTopUpAux_fv]
  · intro i hi
    simp only [calculateSipTopUp, sipTopUpSpecFV]
    exact sipTopUpAux_balances (periodicRate r f) inc (periodsPerYear f) cy t 1 c0 0 0 i hi

/-- C7 witness: the characterisation instantiated at
`calculateSipTopUp(1000, 10, 12, 2, "monthly")`, with the second conjunct
applied to year index `1 < 2`. -/
theorem claim7_topup_yearly_processing_witness :
    (calculateSipTopUp 1000 10 12 2 .monthly 2025).totalValue =
      jsRound (sipTopUpSpecFV (periodicRate 12 .monthly) (10 / 100)
        (periodsPerYear .monthly) 1000 2) ∧
    (((calculateSipTopUp 1000 10 12 2 .monthly 2025).yearlyData)[1]?).map
        (fun e => e.balance) =
      some (jsRound (sipTopUpSpecFV (periodicRate 12 .monthly) (10 / 100)
        (periodsPerYear .monthly) 1000 (1 + 1))) :=
  ⟨(claim7_topup_yearly_processing 1000 10 12 2 .monthly 2025).1,
    (claim7_topup_yearly_processing 1000 10 12 2 .monthly 2025).2 1 (by decide)⟩

/-! ### Clock-independence of everything but the year labels -/

/-- The label-erased SIP yearly entries do not depend on the wall-clock
year. -/
lemma sipYearlyAux_strip (c pr : ℚ) (ppy cy1 cy2 : ℕ) :
    ∀ (fuel year : ℕ) (ri : ℚ),
      (sipYearlyAux c pr ppy cy1 ri year fuel).map sipEntryStrip =
        (sipYearlyAux c pr ppy cy2 ri year fuel).map sipEntryStrip := by
  intro fuel
  induction fuel with
  | zero => intro year ri; simp [sipYearlyAux]
  | succ k ih =>
    intro year ri
    rw [sipYearlyAux_succ, sipYearlyAux_succ]
    simp only [List.map_cons, sipEntryStrip]
    rw [ih]

/-- The SWP outer loop's final balance, total withdrawal and label-erased
entries do not depend on the wall-clock year. -/
lemma swpYearsAux_strip (mr w : ℚ) (cy1 cy2 : ℕ) :
    ∀ (fuel year : ℕ) (b tw : ℚ),
      (swpYearsAux mr w cy1 fuel year b tw).1 = (swpYearsAux mr w cy2 fuel year b tw).1 ∧
      (swpYearsAux mr w cy1 fuel year b tw).2.1 =
        (swpYearsAux mr w cy2 fuel year b tw).2.1 ∧
      (swpYearsAux mr w cy1 fuel year b tw).2.2.map swpEntryStrip =
        (swpYearsAux mr w cy2 fuel year b tw).2.2.map swpEntryStrip := by
  intro fuel
  induction fuel with
  | zero => intro year b tw; simp [swpYearsAux]
  | succ k ih =>
    intro year b tw
    rw [swpYearsAux_succ, swpYearsAux_succ]
    by_cases hle : (swpYearInner mr w 12 b).1 ≤ 0
    · rw [if_pos hle, if_pos hle]
      simp [swpEntry, swpEntryStrip]
    · rw [if_neg hle, if_neg hle]
      obtain ⟨h1, h2, h3⟩ := ih (year + 1) (swpYearInner mr w 12 b).1
        (tw + w * ((swpYearInner mr w 12 b).2 : ℚ))
      refine ⟨h1, h2, ?_⟩
      simp only [List.map_cons, swpEntry, swpEntryStrip]
      rw [h3]

/-- The top-up loop's totals and label-erased entries do not depend on the
wall-clock year. -/
lemma sipTopUpAux_strip (pr inc : ℚ) (ppy cy1 cy2 : ℕ) :
    ∀ (fuel year : ℕ) (c tot fv : ℚ),
      (sipTopUpAux pr inc ppy cy1 fuel year c tot fv).1 =
        (sipTopUpAux pr inc ppy cy2 fuel year c tot fv).1 ∧
      (sipTopUpAux pr inc ppy cy1 fuel year c tot fv).2.1 =
        (sipTopUpAux pr inc ppy cy2 fuel year c tot fv).2.1 ∧
      (sipTopUpAux pr inc ppy cy1 fuel year c tot fv).2.2.map topUpEntryStrip =
        (sipTopUpAux pr inc ppy cy2 fuel year c tot fv).2.2.map topUpEntryStrip := by
  intro fuel
  induction fuel with
  | zero => intro year c tot fv; simp [sipTopUpAux]
  | succ k ih =>
    intro year c tot fv
    simp only [sipTopUpAux, topUpYearLoop_eval]
    obtain ⟨h1, h2, h3⟩ := ih (year + 1) (if k = 0 then c else c + c * (inc / 100))
      (tot + c * (ppy : ℚ)) (sipTopUpYearSpec pr ppy c fv)
    refine ⟨h1, h2, ?_⟩
    simp only [List.map_cons, topUpEntryStrip]
    rw [h3]

/-- C8 counterexample: the same inputs given to `calculateSip` across a
wall-clock year change (2025 → 2026, the source's `new Date().getFullYear()`
read) produce different results — the `yearLabel` strings differ — so the
results are not bit-identical and the clock is hidden state influencing the
output. -/
theorem claim8_counterexample :
    calculateSip 5000 12 1 .monthly 2025 ≠ calculateSip 5000 12 1 .monthly 2026 := by
  intro h
  have h2 := congrArg (fun s => s.yearlyData.map (fun e => e.yearLabel)) h
  exact absurd h2 (by decide)

/-- C8 (amended): each projector is a pure function of its numeric inputs
plus the wall-clock year; with equal clock reads two calls are bit-identical
(immediate, as the embeddings are functions), and the clock influences
nothing but the `yearLabel` strings: all other output fields, including
every label-erased yearly entry, coincide across any two clock reads.
`calculateEmi` and `generateAmortizationSchedule` do not read the clock at
all. -/
theorem claim8_deterministic_modulo_clock (c r init w wr P lr c0 inc tr : ℚ)
    (t : ℕ) (f g : InvestmentFrequency) (cy1 cy2 : ℕ) :
    sipStrip (calculateSip c r t f cy1) = sipStrip (calculateSip c r t f cy2) ∧
    swpStrip (calculateSwp init w wr t cy1) = swpStrip (calculateSwp init w wr t cy2) ∧
    lumpsumStrip (calculateLumpsum P lr t cy1) =
      lumpsumStrip (calculateLumpsum P lr t cy2) ∧
    topUpStrip (calculateSipTopUp c0 inc tr t g cy1) =
      topUpStrip (calculateSipTopUp c0 inc tr t g cy2) ∧
    calculateEmi P wr t = calculateEmi P wr t ∧
    generateAmortizationSchedule P wr t = generateAmortizationSchedule P wr t := by
  refine ⟨?_, ?_, ?_, ?_, rfl, rfl⟩
  · simp only [calculateSip, sipStrip, Prod.mk.injEq]
    exact ⟨trivial, trivial, trivial,
      sipYearlyAux_strip c (periodicRate r f) (periodsPerYear f) cy1 cy2 t 1 0⟩
  · obtain ⟨h1, h2, h3⟩ := swpYearsAux_strip (wr / 12 / 100) w cy1 cy2 t 1 init 0
    simp only [calculateSwp, swpStrip, Prod.mk.injEq]
    exact ⟨by rw [h1], by rw [h2], trivial, h3⟩
  · simp [calculateLumpsum, lumpsumStrip, List.map_map, Function.comp, lumpsumEntryStrip]
  · obtain ⟨h1, h2, h3⟩ := sipTopUpAux_strip (periodicRate tr g) inc (periodsPerYear g)
      cy1 cy2 t 1 c0 0 0
    simp only [calculateSipTopUp, topUpStrip, Prod.mk.injEq]
    exact ⟨by rw [h1], by rw [h1, h2], by rw [h2], h3⟩

/-- C9: every yearly entry of `calculateLumpsum` carries the rounded
compound-interest balance `round(P * (1 + rate/100)^(i+1))` at its year. -/
theorem claim9_lumpsum_balances (P r : ℚ) (t cy i : ℕ) (hi : i < t) :
    (((calculateLumpsum P r t cy).yearlyData)[i]?).map (fun e => e.balance) =
      some (jsRound (P * (1 + r / 100) ^ (i + 1))) := by
  simp [calculateLumpsum, List.getElem?_map, List.getElem?_range, hi]

/-- C9 witness: the first yearly entry of `calculateLumpsum(1000, 10, 1)`
carries `round(1000 * 1.1)`. -/
theorem claim9_lumpsum_balances_witness :
    0 < 1 ∧
    (((calculateLumpsum 1000 10 1 2025).yearlyData)[0]?).map (fun e => e.balance) =
      some (jsRound (1000 * (1 + 10 / 100) ^ (0 + 1))) :=
  ⟨by decide, claim9_lumpsum_balances 1000 10 1 2025 0 (by decide)⟩

/-- C10: with a horizon of at least one year, the balance of the last yearly
entry equals the reported `totalValue` for `calculateSip`,
`calculateLumpsum` and `calculateSipTopUp`, and the reported `finalBalance`
for `calculateSwp`. -/
theorem claim10_series_summary_consistency (t : ℕ) (ht : 1 ≤ t)
    (c r P lr init w wr c0 inc tr : ℚ) (f g : InvestmentFrequency) (cy : ℕ) :
    ((calculateSip c r t f cy).yearlyData.getLast?.map (fun e => e.balance) =
      some (calculateSip c r t f cy).totalValue) ∧
    ((calculateLumpsum P lr t cy).yearlyData.getLast?.map (fun e => e.balance) =
      some (calculateLumpsum P lr t cy).totalValue) ∧
    ((calculateSipTopUp c0 inc tr t g cy).yearlyData.getLast?.map (fun e => e.balance) =
      some (calculateSipTopUp c0 inc tr t g cy).totalValue) ∧
    ((calculateSwp init w wr t cy).yearlyData.getLast?.map (fun e => e.balance) =
      some (calculateSwp init w wr t cy).finalBalance) := by
  obtain ⟨s, rfl⟩ : ∃ s, t = s + 1 := ⟨t - 1, by omega⟩
  refine ⟨?_, ?_, ?_, ?_⟩
  · simp only [calculateSip]
    rw [sipYearlyAux_getLast c (periodicRate r f) (periodsPerYear f) cy (s + 1) ht 1 0]
    have harith : 1 + (s + 1) - 1 = s + 1 := by omega
    rw [harith]
  · simp only [calculateLumpsum, List.range_succ, List.map_append, List.map_cons,
      List.map_nil, List.getLast?_concat]
    rfl
  · simp only [calculateSipTopUp]
    rw [sipTopUpAux_getLast (periodicRate tr g) inc (periodsPerYear g) cy (s + 1) ht 1 c0 0 0]
  · simp only [calculateSwp]
    rw [swpYearsAux_getLast (wr / 12 / 100) w cy (s + 1) 1 init 0 ht]

/-- C10 witness: the last-entry/summary agreement at horizon 1 for the four
series-producing calculators at concrete inputs. -/
theorem claim10_series_summary_consistency_witness :
    1 ≤ 1 ∧
    (((calculateSip 5000 12 1 .monthly 2025).yearlyData.getLast?.map
        (fun e => e.balance) = some (calculateSip 5000 12 1 .monthly 2025).totalValue) ∧
      ((calculateLumpsum 1000 10 1 2025).yearlyData.getLast?.map (fun e => e.balance) =
        some (calculateLumpsum 1000 10 1 2025).totalValue) ∧
      ((calculateSipTopUp 1000 10 12 1 .monthly 2025).yearlyData.getLast?.map
        (fun e => e.balance) = some (calculateSipTopUp 1000 10 12 1 .monthly 2025).totalValue) ∧
      ((calculateSwp 100 100 0 1 2025).yearlyData.getLast?.map (fun e => e.balance) =
        some (calculateSwp 100 100 0 1 2025).finalBalance)) :=
  ⟨le_refl 1, claim10_series_summary_consistency 1 (le_refl 1)
    5000 12 1000 10 100 100 0 1000 10 12 .monthly .monthly 2025⟩

end FinCalc
